import Mathlib

/-!
Verification of the utterance-segmentation core of the `assistant` repository
(src/main.rs, src/circular_buffer.rs, src/chat.rs).

Shallow embedding conventions:
* audio samples are treated opaquely (a type parameter `α`); no claim depends
  on floating-point arithmetic on sample values;
* `Instant` (Rust std monotonic clock) is a `Nat` of milliseconds since the
  clock's unspecified zero point; `Instant - Instant` is Rust's
  `Instant::duration_since`, which saturates to zero (Rust >= 1.60), while
  `Instant - Duration` is `Instant::checked_sub(..).expect(..)`, which panics
  on underflow — modelled as `Option`;
* Rust panics (failed `copy_from_slice`, out-of-range slicing, `Instant`
  underflow) are modelled as `none` / `Except.error`;
* the external collaborators (webrtc VAD, rustpotter, whisper, the OpenAI
  HTTP call, serde_json parsing of the assistant reply) are parameters of the
  embedded functions: the embedding covers exactly the plumbing the repository
  itself performs around them.
-/

set_option autoImplicit false

universe u

variable {α : Type u}

/-! ### CircularBuffer (src/circular_buffer.rs) -/

/-- Embeds `CircularBuffer<T>`: a `VecDeque` (a list, oldest element first)
plus a capacity. -/
structure CircularBuffer (α : Type u) where
  deque : List α
  cap : Nat
  deriving DecidableEq

/-- Embeds `CircularBuffer::new(capacity)`: empty deque. -/
def CircularBuffer.new (capacity : Nat) : CircularBuffer α :=
  { deque := [], cap := capacity }

/-- Embeds `CircularBuffer::overwrite` (circular_buffer.rs lines 27-32):
if `len == cap`, `pop_front` (a no-op on an empty deque, as the `Option`
result is discarded), then `push_back`. Total: it never fails. -/
def CircularBuffer.overwrite (b : CircularBuffer α) (element : α) : CircularBuffer α :=
  if b.deque.length = b.cap then
    { b with deque := b.deque.tail ++ [element] }
  else
    { b with deque := b.deque ++ [element] }

/-- Embeds `CircularBuffer::len`. -/
def CircularBuffer.len (b : CircularBuffer α) : Nat :=
  b.deque.length

/-! ### Classifier frame extraction (src/main.rs lines 135-150) -/

/-- The VAD frame length: `(sample_rate as f32 * (10./1000.)) as usize`,
asserted equal to `160` at main.rs line 96. -/
def vad_frame_length : Nat := 160

/-- Embeds the classification guard of the poll tick (main.rs line 135):
`audio_handle.len() > vad_frame_length && audio_handle.len() > 480`.
Classification and frame extraction happen only when this guard holds. -/
def classifyGuard (len : Nat) : Bool :=
  decide (vad_frame_length < len) && decide (480 < len)

/-- Embeds the frame-extraction idiom of main.rs lines 136-139 (VAD frame,
`L = vad_frame_length`) and lines 146-150 (rustpotter frame, `L = 480`), for
slices `(s0, s1) = buffer.as_slices()`:

```
let (left, right) = frame.split_at_mut(L.saturating_sub(s1.len()));
right.copy_from_slice(&s1[s1.len().saturating_sub(right.len())..]);
left.copy_from_slice(&s0[s0.len().saturating_sub(left.len())..]);
```

`copy_from_slice` panics when source and destination lengths differ; the
panic is modelled as `none`. On success the frame is `left ++ right`. -/
def extractFrame (L : Nat) (s0 s1 : List α) : Option (List α) :=
  let leftLen := L - s1.length
  let rightLen := L - leftLen
  let rightSrc := s1.drop (s1.length - rightLen)
  let leftSrc := s0.drop (s0.length - leftLen)
  if rightSrc.length = rightLen ∧ leftSrc.length = leftLen then
    some (leftSrc ++ rightSrc)
  else
    none

/-! ### Finalization window (src/main.rs lines 173-179) -/

/-- Embeds the Rust suffix-slicing expression `&v[start..]`, which panics
(modelled as `none`) when `start > v.len()`. -/
def sliceFrom (l : List α) (start : Nat) : Option (List α) :=
  if start ≤ l.length then some (l.drop start) else none

/-- Embeds main.rs line 179 after `make_contiguous` (line 178): `contents` is
the whole buffer oldest-first, and the utterance window is
`&contents[len().saturating_sub(speaking_duration_samples)..]`. -/
def finalizeWindow (contents : List α) (speaking_duration_samples : Nat) : Option (List α) :=
  sliceFrom contents (contents.length - speaking_duration_samples)

/-! ### Instant arithmetic (Rust std semantics, used at main.rs 152-174) -/

/-- Embeds `Instant - Instant` (`Instant::duration_since`): saturates to the
zero duration when the right operand is later (Rust >= 1.60). -/
def durSince (a b : Nat) : Nat :=
  a - b

/-- Embeds `Instant - Duration` (`Instant::checked_sub(..).expect(..)`):
panics — modelled as `none` — when the duration reaches past the clock's
zero point. -/
def instantSubDur (t d : Nat) : Option Nat :=
  if d ≤ t then some (t - d) else none

/-! ### Utterance state machine (src/main.rs lines 26-30 and 144-220) -/

/-- Embeds `enum SpeakingState` (main.rs lines 26-30). `Pending` carries the
`end: Instant` set when voice first dropped out. -/
inductive SpeakingState where
  | Silent
  | Speaking
  | Pending (endT : Nat)
  deriving DecidableEq

/-- The mutable loop variables of `main` (main.rs lines 128-130). -/
structure PollState where
  speaking : SpeakingState
  speaking_start : Nat
  detection_start : Nat
  deriving DecidableEq

/-- Embeds one pass of the `match speaking` block (main.rs lines 144-220),
given the current tick's clock reading `now`, the VAD decision `voice`
(line 142) and whether rustpotter reported a detection `wake` (line 152,
consulted only in `Silent`).  Returns `none` when the tick panics
(`Instant::now() - Duration::from_millis(2000)` underflows, line 155),
otherwise the next state and whether this tick finalized an utterance
(the body of lines 169-216). -/
def tick (now : Nat) (voice : Bool) (wake : Bool) (s : PollState) :
    Option (PollState × Bool) :=
  match s.speaking with
  | SpeakingState.Silent =>
    if wake then
      match instantSubDur now 2000 with
      | none => none
      | some start =>
        some ({ speaking := SpeakingState.Speaking,
                speaking_start := start,
                detection_start := now }, false)
    else
      some (s, false)
  | SpeakingState.Speaking =>
    if voice then
      some (s, false)
    else
      some ({ s with speaking := SpeakingState.Pending now }, false)
  | SpeakingState.Pending endT =>
    if voice then
      some ({ s with speaking := SpeakingState.Speaking }, false)
    else
      if 800 < durSince now endT ∧ 1500 < durSince now s.detection_start then
        some ({ s with speaking := SpeakingState.Silent }, true)
      else
        some (s, false)

/-! ### Chat history (src/chat.rs) -/

/-- Embeds `enum Entry` (chat.rs lines 10-14). -/
inductive Entry where
  | system (s : String)
  | assistant (s : String)
  | user (s : String)
  deriving DecidableEq

/-- Embeds `Entry::content` (chat.rs lines 16-22). -/
def Entry.content : Entry → String
  | Entry.system s => s
  | Entry.assistant s => s
  | Entry.user s => s

/-- Embeds `struct Chat` (chat.rs lines 63-70). -/
structure Chat where
  model : String
  messages : List Entry
  tokens : Nat
  deriving DecidableEq

/-- Embeds `Chat::new` (chat.rs lines 72-78). -/
def Chat.new : Chat :=
  { model := "gpt-3.5-turbo", messages := [], tokens := 0 }

/-- Embeds `Chat::push_entry`. -/
def Chat.push_entry (c : Chat) (e : Entry) : Chat :=
  { c with messages := c.messages ++ [e] }

/-- Embeds `Chat::push_user`. -/
def Chat.push_user (c : Chat) (message : String) : Chat :=
  c.push_entry (Entry.user message)

/-- Embeds `Chat::last`. -/
def Chat.last (c : Chat) : Option Entry :=
  c.messages.getLast?

/-- Embeds `Chat::complete` (chat.rs lines 95-118). The HTTP request and the
extraction of `choices[0].message` and `usage.total_tokens` from the response
JSON are the external collaborator; the whole exchange is abstracted as
`api : Except String (Entry × Nat)` — an error on any network or
response-shape failure (each `?` in the body), otherwise the completion entry
and the token count. On success the repository's own code adds the tokens and
pushes the completion entry. -/
def Chat.complete (c : Chat) (api : Except String (Entry × Nat)) : Except String Chat :=
  match api with
  | Except.error e => Except.error e
  | Except.ok (completion, tokens_used) =>
    Except.ok { (c.push_entry completion) with tokens := c.tokens + tokens_used }

/-! ### Prompt handling (src/main.rs lines 227-257) -/

/-- Embeds `enum ResponseType` (main.rs lines 229-233). -/
inductive ResponseType where
  | response
  | python
  | unclear
  deriving DecidableEq

/-- Embeds `struct AssistantResponse` (main.rs lines 234-240). -/
structure AssistantResponse where
  ty : ResponseType
  response : Option String
  python : Option String
  deriving DecidableEq

/-- ASCII letter test, the character class `[a-zA-Z]` of the wake regex. -/
def isAsciiAlphaChar (c : Char) : Bool :=
  (decide ('a' ≤ c) && decide (c ≤ 'z')) || (decide ('A' ≤ c) && decide (c ≤ 'Z'))

/-- Continuation of the third alternative `[a-zA-Z]+ peter` after at least one
letter has been consumed: keep consuming letters; at the first space the
literal `peter` must follow; any other character fails.  This is exactly the
language the automaton-based `regex` crate recognizes for that alternative,
since a letter can never match the literal space. -/
def lettersThenSpacePeter : List Char → Bool
  | [] => false
  | c :: rest =>
    if c = ' ' then
      List.isPrefixOf "peter".toList rest
    else
      isAsciiAlphaChar c && lettersThenSpacePeter rest

/-- Embeds `Regex::new("^(computer|peter|[a-zA-Z]+ peter)").is_match(&prompt)`
(main.rs lines 247-248): the anchored pattern matches iff the prompt starts
with `computer`, starts with `peter`, or starts with one-or-more ASCII
letters, a space, and `peter`. -/
def matchesWakeRegex (s : String) : Bool :=
  let cs := s.toList
  List.isPrefixOf "computer".toList cs ||
  List.isPrefixOf "peter".toList cs ||
  (match cs with
   | [] => false
   | c :: rest => isAsciiAlphaChar c && lettersThenSpacePeter rest)

/-- Embeds `format!(r#"{{"type": "user", "content": "{}"}}"#, prompt)`
(main.rs line 249). -/
def userJson (prompt : String) : String :=
  "\x7b\"type\": \"user\", \"content\": \"" ++ prompt ++ "\"\x7d"

/-- Embeds `handle_prompt` (main.rs lines 242-257). `parse` abstracts
`serde_json::from_str::<AssistantResponse>` (`.ok()` turns its error into
`None`); `api` abstracts the chat-completion exchange as in `Chat.complete`.
If the joined prompt matches the wake regex, a user turn is pushed and
completion is requested (its error propagating through `?`); otherwise
`Ok(None)` is returned with the chat untouched. -/
def handle_prompt (parse : String → Option AssistantResponse)
    (api : Except String (Entry × Nat)) (chat : Chat) (prompt : List String) :
    Except String (Chat × Option AssistantResponse) :=
  let p := String.intercalate " " prompt
  if matchesWakeRegex p then
    match (chat.push_user (userJson p)).complete api with
    | Except.error e => Except.error e
    | Except.ok chat2 =>
      Except.ok (chat2, parse ((chat2.last.getD (Entry.assistant "")).content))
  else
    Except.ok (chat, none)

/-! ### Response playback and the handoff tail of the poll loop
(src/main.rs lines 201-215) -/

/-- The audible outcome of one handled utterance: either `play_tts(text)` or
`play_file("./unclear.wav")`. -/
inductive PlayAction where
  | tts (text : String)
  | unclearCue
  deriving DecidableEq

/-- Embeds the `match response` block (main.rs lines 202-213): TTS is played
only for `Some` responses of type `Response` carrying `Some` text; every
other case plays the "unclear" cue. -/
def respondTo : Option AssistantResponse → PlayAction
  | some r =>
    match r.ty, r.response with
    | ResponseType.response, some text => PlayAction.tts text
    | _, _ => PlayAction.unclearCue
  | none => PlayAction.unclearCue

/-- Outcome of the handoff tail for one finalized utterance: either the error
propagates out of `main` through `?` (the loop is gone, the buffer keeps its
contents), or the loop continues with the cue played and the buffer as left
by the tail. -/
inductive HandoffOutcome (α : Type u) where
  | crashed (err : String) (buffer : List α)
  | continued (chat : Chat) (played : PlayAction) (buffer : List α)
  deriving DecidableEq

/-- Embeds main.rs lines 201-215: `handle_prompt(..).await?` followed — only
on `Ok` — by the response match and `audio_handle.clear()`. On `Err` the `?`
returns from `main`, so the clear never runs. -/
def finalizeHandoff (parse : String → Option AssistantResponse)
    (api : Except String (Entry × Nat)) (chat : Chat) (segments : List String)
    (buffer : List α) : HandoffOutcome α :=
  match handle_prompt parse api chat segments with
  | Except.error e => HandoffOutcome.crashed e buffer
  | Except.ok (chat2, response) =>
    HandoffOutcome.continued chat2 (respondTo response) []

/-! ### Lock discipline (src/main.rs lines 110-124 and 131-222)

The order of lock operations and external calls is read directly off the
source. The audio callback locks the mutex freshly for each sample's
`overwrite` (line 117, a temporary borrow whose guard drops at the end of the
statement). The poll loop locks the mutex at the top of each iteration
(line 133) and the guard lives to the end of the iteration, past the VAD
call (line 142), the rustpotter call (line 152), and — on finalization — the
whisper call (line 185), the network call (line 201), and the clear
(line 215). -/

/-- Events of the lock-order traces. -/
inductive LockEv where
  | acq
  | rel
  | bufferOp
  | classifierCall
  | networkCall
  deriving DecidableEq

/-- One sample's work in the audio callback (main.rs line 117):
lock, `overwrite`, unlock. -/
def audioCallbackTickEvents : List LockEv :=
  [LockEv.acq, LockEv.bufferOp, LockEv.rel]

/-- One poll iteration in the `Silent` state with the classification guard
met (main.rs lines 133-157): lock; VAD frame copy; VAD call; rustpotter frame
copy; rustpotter call; unlock at iteration end. -/
def pollTickSilentEvents : List LockEv :=
  [LockEv.acq, LockEv.bufferOp, LockEv.classifierCall,
   LockEv.bufferOp, LockEv.classifierCall, LockEv.rel]

/-- One poll iteration that finalizes an utterance (main.rs lines 133-222,
`Pending` branch with thresholds met): lock; VAD frame copy; VAD call;
`make_contiguous` and window slice; whisper (STT) call; `handle_prompt`
(network) call; `clear`; unlock at iteration end. -/
def pollTickFinalizeEvents : List LockEv :=
  [LockEv.acq, LockEv.bufferOp, LockEv.classifierCall,
   LockEv.bufferOp, LockEv.classifierCall, LockEv.networkCall,
   LockEv.bufferOp, LockEv.rel]

/-- Whether some classifier or network call happens while the lock is held
(depth `d` locks currently held). -/
def callsWhileLocked : List LockEv → Nat → Bool
  | [], _ => false
  | LockEv.acq :: rest, d => callsWhileLocked rest (d + 1)
  | LockEv.rel :: rest, d => callsWhileLocked rest (d - 1)
  | LockEv.bufferOp :: rest, d => callsWhileLocked rest d
  | LockEv.classifierCall :: rest, d => decide (0 < d) || callsWhileLocked rest d
  | LockEv.networkCall :: rest, d => decide (0 < d) || callsWhileLocked rest d

/-! ## Helper lemmas -/

/-- `overwrite` never changes the capacity. -/
theorem overwrite_cap (b : CircularBuffer α) (x : α) : (b.overwrite x).cap = b.cap := by
  unfold CircularBuffer.overwrite
  split <;> rfl

/-- Folding `overwrite` over a write sequence never changes the capacity. -/
theorem foldl_overwrite_cap (b : CircularBuffer α) (ws : List α) :
    (List.foldl CircularBuffer.overwrite b ws).cap = b.cap := by
  induction ws generalizing b with
  | nil => rfl
  | cons w rest ih => rw [List.foldl_cons, ih, overwrite_cap]

/-- Contents after any write sequence into a fresh buffer of capacity at least
one: the suffix of the writes of length at most the capacity. -/
theorem foldl_overwrite_deque (C : Nat) (hC : 1 ≤ C) (ws : List α) :
    (List.foldl CircularBuffer.overwrite (CircularBuffer.new C) ws).deque
      = ws.drop (ws.length - C) := by
  induction ws using List.reverseRecOn with
  | nil => simp [CircularBuffer.new]
  | append_singleton xs x ih =>
    have hcap : (List.foldl CircularBuffer.overwrite
        (CircularBuffer.new C : CircularBuffer α) xs).cap = C :=
      foldl_overwrite_cap _ xs
    rw [List.foldl_append]
    simp only [List.foldl_cons, List.foldl_nil]
    rw [CircularBuffer.overwrite]
    by_cases hle : C ≤ xs.length
    · have hlen : (List.foldl CircularBuffer.overwrite
          (CircularBuffer.new C : CircularBuffer α) xs).deque.length = C := by
        rw [ih, List.length_drop]; omega
      rw [if_pos (by rw [hlen, hcap])]
      simp only [ih, List.tail_drop]
      have h1 : xs.length - C + 1 = xs.length + 1 - C := by omega
      have h2 : (xs ++ [x]).length - C = xs.length + 1 - C := by simp
      rw [h1, h2, List.drop_append_of_le_length (by omega)]
    · have hlen : (List.foldl CircularBuffer.overwrite
          (CircularBuffer.new C : CircularBuffer α) xs).deque.length = xs.length := by
        rw [ih]; simp; omega
      rw [if_neg (by rw [hlen, hcap]; omega)]
      have h0 : xs.length - C = 0 := by omega
      have h2 : (xs ++ [x]).length - C = 0 := by simp; omega
      rw [ih, h0, h2, List.drop_zero, List.drop_zero]

/-- Frame extraction on slices holding fewer than `L` samples in total hits
the `copy_from_slice` length-mismatch panic. -/
theorem extractFrame_underfull (L : Nat) (s0 s1 : List α) (h : s0.length + s1.length < L) :
    extractFrame L s0 s1 = none := by
  unfold extractFrame
  rw [if_neg]
  intro hc
  have hb := hc.2
  have e0 : s0.length - (L - s1.length) = 0 := by omega
  rw [e0, List.drop_zero] at hb
  omega

/-! ## Claim theorems -/

/-- Claim C1: the utterance state machine follows the transition table. In
`Silent` a wake-word detection moves to `Speaking` with
`speaking_start = now - 2000ms` and `detection_start = now` (the `2000 ≤ now`
hypothesis keeps the `Instant - Duration` computation, which does not
saturate, inside the clock's range — see claim C8); without a detection the
state is unchanged. In `Speaking`, `voice = false` moves to
`Pending (silence_started := now)`. In `Pending`, `voice = true` returns to
`Speaking`, discarding the timer. Finalization — the `true` flag, i.e. the
utterance handoff — happens exactly when `voice = false` and
`now - silence_started > 800` and `now - detection_start > 1500`, both
comparisons strict; otherwise `Pending` stays put. Any scripted sequence of
poll ticks is the pointwise iteration of `tick`, so its state trace follows
this table at every tick. -/
theorem tick_transition_table (now : Nat) (voice wake : Bool) (sp : SpeakingState) (ss ds : Nat) :
    (sp = SpeakingState.Silent → wake = true → 2000 ≤ now →
      tick now voice wake ⟨sp, ss, ds⟩ =
        some ({ speaking := SpeakingState.Speaking, speaking_start := now - 2000,
                detection_start := now }, false)) ∧
    (sp = SpeakingState.Silent → wake = false →
      tick now voice wake ⟨sp, ss, ds⟩ = some (⟨sp, ss, ds⟩, false)) ∧
    (sp = SpeakingState.Speaking → voice = false →
      tick now voice wake ⟨sp, ss, ds⟩ =
        some (⟨SpeakingState.Pending now, ss, ds⟩, false)) ∧
    (sp = SpeakingState.Speaking → voice = true →
      tick now voice wake ⟨sp, ss, ds⟩ = some (⟨sp, ss, ds⟩, false)) ∧
    (∀ e, sp = SpeakingState.Pending e → voice = true →
      tick now voice wake ⟨sp, ss, ds⟩ = some (⟨SpeakingState.Speaking, ss, ds⟩, false)) ∧
    (∀ e, sp = SpeakingState.Pending e → voice = false →
      800 < durSince now e → 1500 < durSince now ds →
      tick now voice wake ⟨sp, ss, ds⟩ = some (⟨SpeakingState.Silent, ss, ds⟩, true)) ∧
    (∀ e, sp = SpeakingState.Pending e → voice = false →
      ¬(800 < durSince now e ∧ 1500 < durSince now ds) →
      tick now voice wake ⟨sp, ss, ds⟩ = some (⟨sp, ss, ds⟩, false)) ∧
    (∀ s' f, tick now voice wake ⟨sp, ss, ds⟩ = some (s', f) → f = true →
      ∃ e, sp = SpeakingState.Pending e ∧ voice = false ∧
        800 < durSince now e ∧ 1500 < durSince now ds) := by
  refine ⟨?_, ?_, ?_, ?_, ?_, ?_, ?_, ?_⟩
  · rintro rfl rfl h
    simp [tick, instantSubDur, h]
  · rintro rfl rfl
    simp [tick]
  · rintro rfl rfl
    simp [tick]
  · rintro rfl rfl
    simp [tick]
  · rintro e rfl rfl
    simp [tick]
  · rintro e rfl rfl h1 h2
    simp [tick, h1, h2]
  · rintro e rfl rfl h
    simp [tick, h]
  · rintro s' f hf rfl
    cases sp with
    | Silent =>
      by_cases hw : wake = true
      · subst hw
        simp only [tick, if_true] at hf
        rcases h2000 : instantSubDur now 2000 with _ | v <;> rw [h2000] at hf <;> simp at hf
      · have hw' : wake = false := by revert hw; cases wake <;> simp
        subst hw'
        simp [tick] at hf
    | Speaking =>
      cases voice <;> simp [tick] at hf
    | Pending e =>
      refine ⟨e, rfl, ?_, ?_⟩
      · cases voice
        · rfl
        · simp [tick] at hf
      · cases voice
        · simp only [tick] at hf
          by_cases hcond : 800 < durSince now e ∧ 1500 < durSince now ds
          · exact ⟨hcond.1, hcond.2⟩
          · rw [if_neg (by simp)] at hf
            rw [if_neg hcond] at hf
            simp at hf
        · simp [tick] at hf

/-- Claim C1 witness: a wake-word detection at `now = 5000` enters `Speaking`
with `speaking_start = 3000` and `detection_start = 5000`; 799ms of silence
does not finalize; 801ms of silence with the minimum-utterance threshold
already exceeded does; returning voice re-enters `Speaking`. -/
theorem tick_transition_table_witness :
    tick 5000 false true ⟨SpeakingState.Silent, 0, 0⟩ =
      some ({ speaking := SpeakingState.Speaking, speaking_start := 3000,
              detection_start := 5000 }, false) ∧
    tick 7000 false false ⟨SpeakingState.Pending 6201, 3000, 5000⟩ =
      some (⟨SpeakingState.Pending 6201, 3000, 5000⟩, false) ∧
    tick 7000 false false ⟨SpeakingState.Pending 6199, 3000, 5000⟩ =
      some (⟨SpeakingState.Silent, 3000, 5000⟩, true) ∧
    tick 7000 true false ⟨SpeakingState.Pending 6199, 3000, 5000⟩ =
      some (⟨SpeakingState.Speaking, 3000, 5000⟩, false) :=
  ⟨((tick_transition_table 5000 false true SpeakingState.Silent 0 0).1 rfl rfl
      (by decide)).trans (by decide),
   (tick_transition_table 7000 false false (SpeakingState.Pending 6201) 3000 5000).2.2.2.2.2.2.1
      6201 rfl rfl (by decide),
   (tick_transition_table 7000 false false (SpeakingState.Pending 6199) 3000 5000).2.2.2.2.2.1
      6199 rfl rfl (by decide) (by decide),
   (tick_transition_table 7000 true false (SpeakingState.Pending 6199) 3000 5000).2.2.2.2.1
      6199 rfl rfl⟩

/-- Claim C2 counterexample: a collaborator failure (the chat-completion call
returns an error) does not abort only the current utterance — the `?` at
main.rs line 201 propagates the error out of `main`, so the poll loop is
gone and `audio_handle.clear()` (line 215) never runs: the outcome is
`crashed` with the buffer still holding its samples, not `continued` with a
cleared buffer. -/
theorem collaborator_error_crashes_loop :
    finalizeHandoff (fun _ => none) (Except.error "network error") Chat.new
      ["computer", "set", "a", "timer"] ([1, 2, 3] : List Nat) =
      HandoffOutcome.crashed "network error" [1, 2, 3] := by rfl

/-- Claim C2 (amended): an error from the collaborator handoff propagates out
of `main` through `?`, terminating the capture/poll loop with the audio
buffer left uncleared; only an `Ok` result of `handle_prompt` (including
`Ok(None)`) lets the loop play the cue, clear the buffer and continue. -/
theorem finalizeHandoff_outcomes (parse : String → Option AssistantResponse)
    (api : Except String (Entry × Nat)) (chat : Chat) (segments : List String)
    (buffer : List α) :
    (∀ err, handle_prompt parse api chat segments = Except.error err →
      finalizeHandoff parse api chat segments buffer = HandoffOutcome.crashed err buffer) ∧
    (∀ chat2 r, handle_prompt parse api chat segments = Except.ok (chat2, r) →
      finalizeHandoff parse api chat segments buffer =
        HandoffOutcome.continued chat2 (respondTo r) []) := by
  constructor
  · intro err h
    simp [finalizeHandoff, h]
  · intro chat2 r h
    simp [finalizeHandoff, h]

/-- Claim C2 witness: an LLM error on a matching prompt crashes the loop with
the buffer kept; a non-matching prompt yields `Ok(None)` and the loop
continues with the buffer cleared. -/
theorem finalizeHandoff_outcomes_witness :
    finalizeHandoff (fun _ => none) (Except.error "llm down") Chat.new
      ["computer"] ([9] : List Nat) = HandoffOutcome.crashed "llm down" [9] ∧
    finalizeHandoff (fun _ => none) (Except.ok (Entry.assistant "x", 1)) Chat.new
      ["nothing", "here"] ([9] : List Nat) =
      HandoffOutcome.continued Chat.new PlayAction.unclearCue [] :=
  ⟨(finalizeHandoff_outcomes (fun _ => none) (Except.error "llm down") Chat.new
      ["computer"] [9]).1 "llm down" (by rfl),
   (finalizeHandoff_outcomes (fun _ => none) (Except.ok (Entry.assistant "x", 1)) Chat.new
      ["nothing", "here"] [9]).2 Chat.new none (by rfl)⟩

/-- Claim C3 counterexample: on a buffer of 100 samples (fewer than
`vad_frame_length = 160`) frame extraction does not produce a zero-padded
length-160 window — it hits the `copy_from_slice` panic (`none`); and the
poll tick's guard is false at 100 samples, so classification does not run at
all before the buffer holds more than 480 samples. -/
theorem extractFrame_underfull_no_padding :
    extractFrame vad_frame_length (List.replicate 100 (0 : Nat)) [] = none ∧
    classifyGuard 100 = false := by decide

/-- Claim C3 (amended): with fewer than `L` samples in the buffer, frame
extraction does not left-pad with zeros — applied to such a buffer it would
panic on the `copy_from_slice` length mismatch — and the code never reaches
it: the poll tick classifies only when the buffer holds more than
`max vad_frame_length 480 = 480` samples, so classification does not begin
before the buffer is populated past both frame lengths. -/
theorem underfull_skips_classification :
    (∀ (L : Nat) (s0 s1 : List α), s0.length + s1.length < L → extractFrame L s0 s1 = none) ∧
    (∀ len : Nat, len ≤ 480 → classifyGuard len = false) := by
  constructor
  · exact fun L s0 s1 h => extractFrame_underfull L s0 s1 h
  · intro len h
    simp [classifyGuard, vad_frame_length]
    omega

/-- Claim C3 witness: one sample cannot fill a 160-sample frame; 480 buffered
samples still fail the classification guard. -/
theorem underfull_skips_classification_witness :
    extractFrame 160 ([5] : List Nat) [] = none ∧ classifyGuard 480 = false :=
  ⟨(@underfull_skips_classification Nat).1 160 [5] [] (by decide),
   (@underfull_skips_classification Nat).2 480 (by decide)⟩

/-- Claim C4 counterexample: with capacity `C = 0` the claim fails — `len() ==
cap` holds on the empty buffer, `pop_front` is a no-op, and `push_back` still
runs, so one `overwrite` makes the length 1 > 0 = C, and the contents `[7]`
are not the last `min(C, 1) = 0` written elements. -/
theorem overwrite_capacity_zero_violates :
    ((CircularBuffer.new 0 : CircularBuffer Nat).overwrite 7).len = 1 ∧
    ((CircularBuffer.new 0 : CircularBuffer Nat).overwrite 7).cap = 0 ∧
    ((CircularBuffer.new 0 : CircularBuffer Nat).overwrite 7).deque ≠
      List.drop ([7].length - 0) [7] := by decide

/-- Claim C4 (amended): for every capacity `C ≥ 1` and every sequence of
`overwrite` calls (which are total — they never fail), the buffer length
never exceeds `C` and the contents equal the last `min(C, number of writes)`
written elements in write order: FIFO eviction of the oldest element. -/
theorem overwrite_fifo (C : Nat) (ws : List α) (hC : 1 ≤ C) :
    (List.foldl CircularBuffer.overwrite (CircularBuffer.new C) ws).len ≤ C ∧
    (List.foldl CircularBuffer.overwrite (CircularBuffer.new C) ws).deque
      = ws.drop (ws.length - C) := by
  have hd := foldl_overwrite_deque C hC ws
  refine ⟨?_, hd⟩
  rw [CircularBuffer.len, hd, List.length_drop]
  omega

/-- Claim C4 witness: five writes into a capacity-2 buffer keep the last two
writes, in write order. -/
theorem overwrite_fifo_witness :
    (List.foldl CircularBuffer.overwrite (CircularBuffer.new 2 : CircularBuffer Nat)
        [1, 2, 3, 4, 5]).len ≤ 2 ∧
    (List.foldl CircularBuffer.overwrite (CircularBuffer.new 2 : CircularBuffer Nat)
        [1, 2, 3, 4, 5]).deque = [4, 5] :=
  ⟨(overwrite_fifo 2 [1, 2, 3, 4, 5] (by decide)).1,
   ((overwrite_fifo 2 [1, 2, 3, 4, 5] (by decide)).2).trans (by decide)⟩

/-- Claim C5: the finalization slice `&contents[len - samples ..]` never
panics (`saturating_sub` keeps the start index within range), and when the
computed sample count exceeds the buffer's current length the window is
exactly the full buffer contents, oldest first — the utterance is silently
truncated from the front. -/
theorem finalizeWindow_clamps (contents : List α) (samples : Nat) :
    (finalizeWindow contents samples).isSome = true ∧
    (contents.length < samples → finalizeWindow contents samples = some contents) := by
  unfold finalizeWindow sliceFrom
  constructor
  · rw [if_pos (by omega)]
    rfl
  · intro hlt
    rw [if_pos (by omega)]
    have e : contents.length - samples = 0 := by omega
    rw [e, List.drop_zero]

/-- Claim C5 witness: requesting 10 samples from a 3-sample buffer yields the
whole buffer. -/
theorem finalizeWindow_clamps_witness :
    (finalizeWindow ([1, 2, 3] : List Nat) 10).isSome = true ∧
    finalizeWindow ([1, 2, 3] : List Nat) 10 = some [1, 2, 3] :=
  ⟨(finalizeWindow_clamps [1, 2, 3] 10).1, (finalizeWindow_clamps [1, 2, 3] 10).2 (by decide)⟩

/-- Claim C6: whenever the two `as_slices()` segments hold at least `L`
samples in total — wherever the wraparound split falls, including a window
spanning the split — the extracted frame is exactly the last `L` samples of
the segments' concatenation in write order. -/
theorem extractFrame_spans_split (L : Nat) (s0 s1 : List α) (h : L ≤ s0.length + s1.length) :
    extractFrame L s0 s1 = some ((s0 ++ s1).drop (s0.length + s1.length - L)) := by
  unfold extractFrame
  by_cases h1 : L ≤ s1.length
  · have e1 : L - s1.length = 0 := Nat.sub_eq_zero_of_le h1
    simp only [e1, Nat.sub_zero, List.drop_length, List.length_nil, List.nil_append]
    rw [if_pos ⟨by rw [List.length_drop]; omega, trivial⟩]
    have e2 : s0.length + s1.length - L = s0.length + (s1.length - L) := by omega
    rw [e2, List.drop_append]
  · have e1 : L - (L - s1.length) = s1.length := by omega
    simp only [e1, Nat.sub_self, List.drop_zero]
    rw [if_pos ⟨trivial, by rw [List.length_drop]; omega⟩]
    have e2 : s0.length - (L - s1.length) = s0.length + s1.length - L := by omega
    rw [e2, List.drop_append_of_le_length (by omega)]

/-- Claim C6 witness: a window spanning the split (`L = 4` over segments
`[1,2,3]` and `[4,5]`) and a window inside the second segment (`L = 2`). -/
theorem extractFrame_spans_split_witness :
    extractFrame 4 ([1, 2, 3] : List Nat) [4, 5] = some [2, 3, 4, 5] ∧
    extractFrame 2 ([1, 2, 3] : List Nat) [4, 5] = some [4, 5] :=
  ⟨(extractFrame_spans_split 4 [1, 2, 3] [4, 5] (by decide)).trans (by decide),
   (extractFrame_spans_split 2 [1, 2, 3] [4, 5] (by decide)).trans (by decide)⟩

/-- Claim C7 counterexample: the poll loop does hold the buffer lock across
classifier and network calls — the `MutexGuard` taken at main.rs line 133
lives to the end of the iteration, past the VAD call, the rustpotter call
and, on finalization, the whisper (STT) and chat-completion (network) calls. -/
theorem poll_loop_calls_under_lock :
    callsWhileLocked pollTickSilentEvents 0 = true ∧
    callsWhileLocked pollTickFinalizeEvents 0 = true := by decide

/-- Claim C7 (amended): the audio callback's accesses are short critical
sections (one lock per sample's `overwrite`, no external call under the
lock), but the poll loop acquires the lock at the top of each tick and holds
it across the VAD and wake-word classifier calls, and across the STT and
network calls on finalization. -/
theorem lock_discipline :
    callsWhileLocked audioCallbackTickEvents 0 = false ∧
    callsWhileLocked pollTickSilentEvents 0 = true ∧
    callsWhileLocked pollTickFinalizeEvents 0 = true := by decide

/-- Claim C8 counterexample: the `speaking_start` computation
`Instant::now() - Duration::from_millis(2000)` does not saturate — at a
clock reading of 1000ms it panics (the tick evaluates to `none`), where a
saturating subtraction would have produced a state. `Instant - Instant`
(`durSince`) does saturate. -/
theorem tick_wake_underflow_panics :
    tick 1000 false true
      { speaking := SpeakingState.Silent, speaking_start := 0, detection_start := 0 } = none ∧
    instantSubDur 1000 2000 = none ∧ durSince 1000 2000 = 0 := by decide

/-- Claim C8 (amended): the `Instant - Instant` subtractions of the state
machine (silence elapsed, detection elapsed, utterance duration) saturate to
zero when `now` precedes the stored timestamp; the detection-latency offset
`now - 2000ms`, however, does not saturate: it panics whenever the clock
reading is below 2000ms — a wake-word detection then aborts the tick —
and is defined (equal to the exact difference) whenever `now ≥ 2000ms`. -/
theorem instant_arith_behavior :
    (∀ a b : Nat, b ≤ a → durSince a b = a - b) ∧
    (∀ a b : Nat, a ≤ b → durSince a b = 0) ∧
    (∀ t : Nat, t < 2000 → instantSubDur t 2000 = none) ∧
    (∀ t : Nat, 2000 ≤ t → instantSubDur t 2000 = some (t - 2000)) ∧
    (∀ (t : Nat) (voice : Bool) (s : PollState), s.speaking = SpeakingState.Silent →
      t < 2000 → tick t voice true s = none) := by
  refine ⟨fun a b _ => rfl, ?_, ?_, ?_, ?_⟩
  · intro a b h
    simp [durSince]
    omega
  · intro t h
    simp [instantSubDur]
    omega
  · intro t h
    simp [instantSubDur, h]
  · intro t voice s hs h
    have hi : instantSubDur t 2000 = none := by simp [instantSubDur]; omega
    simp [tick, hs, hi]

/-- Claim C8 witness: saturation of `Instant - Instant`, panic of the offset
below 2000ms, exact subtraction above it, and the panicking tick. -/
theorem instant_arith_behavior_witness :
    durSince 5 9 = 0 ∧ instantSubDur 1999 2000 = none ∧
    instantSubDur 2500 2000 = some 500 ∧
    tick 1500 true true
      { speaking := SpeakingState.Silent, speaking_start := 3, detection_start := 4 } = none :=
  ⟨instant_arith_behavior.2.1 5 9 (by decide),
   instant_arith_behavior.2.2.1 1999 (by decide),
   (instant_arith_behavior.2.2.2.1 2500 (by decide)).trans (by decide),
   instant_arith_behavior.2.2.2.2 1500 true _ rfl (by decide)⟩

/-- Claim C9: `handle_prompt` is gated by the anchored wake regex on the
joined prompt. When the prompt does not match, the result is `Ok(None)` for
every possible collaborator outcome — the completion call is not consulted —
and the chat history is returned unchanged. When it matches, the prompt is
appended as a user turn and sent: on a successful exchange the history gains
exactly the user turn and the completion entry, and the parsed completion is
returned. -/
theorem handle_prompt_wake_gate (parse : String → Option AssistantResponse)
    (api : Except String (Entry × Nat)) (chat : Chat) (prompt : List String) :
    (matchesWakeRegex (String.intercalate " " prompt) = false →
      handle_prompt parse api chat prompt = Except.ok (chat, none)) ∧
    (∀ e n, matchesWakeRegex (String.intercalate " " prompt) = true →
      api = Except.ok (e, n) →
      handle_prompt parse api chat prompt =
        Except.ok ({ model := chat.model,
                     messages := chat.messages ++
                       [Entry.user (userJson (String.intercalate " " prompt)), e],
                     tokens := chat.tokens + n },
                   parse e.content)) := by
  constructor
  · intro hm
    simp [handle_prompt, hm]
  · rintro e n hm rfl
    simp only [handle_prompt, hm, if_true, Chat.complete, Chat.push_user, Chat.push_entry,
      Chat.last]
    rw [List.append_assoc]
    simp [List.getLast?_append]

/-- Claim C9 witness: a non-matching prompt leaves the chat untouched even
when the collaborator would fail; a matching prompt pushes the user turn and
the completion. -/
theorem handle_prompt_wake_gate_witness :
    handle_prompt (fun _ => none) (Except.error "irrelevant") Chat.new ["hello", "there"] =
      Except.ok (Chat.new, none) ∧
    handle_prompt (fun _ => none) (Except.ok (Entry.assistant "reply", 7)) Chat.new
      ["computer", "hi"] =
      Except.ok ({ model := Chat.new.model,
                   messages := Chat.new.messages ++
                     [Entry.user (userJson "computer hi"), Entry.assistant "reply"],
                   tokens := Chat.new.tokens + 7 }, none) :=
  ⟨(handle_prompt_wake_gate (fun _ => none) (Except.error "irrelevant") Chat.new
      ["hello", "there"]).1 (by decide),
   (handle_prompt_wake_gate (fun _ => none) (Except.ok (Entry.assistant "reply", 7)) Chat.new
      ["computer", "hi"]).2 (Entry.assistant "reply") 7 (by decide) rfl⟩

/-- Claim C10: when the completion reply's content is not valid JSON for the
`AssistantResponse` shape (`parse` returns `none`, the model of
`serde_json::from_str(..).ok()`), `handle_prompt` still returns `Ok` with
`None` — not an error — and the handoff tail therefore continues the loop,
playing the "unclear" cue and clearing the buffer: a malformed assistant
reply never aborts utterance handling. -/
theorem handle_prompt_parse_failure (parse : String → Option AssistantResponse)
    (chat : Chat) (prompt : List String) (e : Entry) (n : Nat) (buffer : List α) :
    matchesWakeRegex (String.intercalate " " prompt) = true →
    parse e.content = none →
    handle_prompt parse (Except.ok (e, n)) chat prompt =
      Except.ok ({ model := chat.model,
                   messages := chat.messages ++
                     [Entry.user (userJson (String.intercalate " " prompt)), e],
                   tokens := chat.tokens + n }, none) ∧
    finalizeHandoff parse (Except.ok (e, n)) chat prompt buffer =
      HandoffOutcome.continued
        { model := chat.model,
          messages := chat.messages ++
            [Entry.user (userJson (String.intercalate " " prompt)), e],
          tokens := chat.tokens + n }
        PlayAction.unclearCue [] := by
  intro hm hp
  have hh : handle_prompt parse (Except.ok (e, n)) chat prompt =
      Except.ok ({ model := chat.model,
                   messages := chat.messages ++
                     [Entry.user (userJson (String.intercalate " " prompt)), e],
                   tokens := chat.tokens + n }, none) := by
    simp only [handle_prompt, hm, if_true, Chat.complete, Chat.push_user, Chat.push_entry,
      Chat.last]
    rw [List.append_assoc]
    simp [List.getLast?_append, hp]
  refine ⟨hh, ?_⟩
  simp [finalizeHandoff, hh, respondTo]

/-- Claim C10 witness: a matching prompt whose completion is unparseable
yields `Ok(None)` and a continued loop with the unclear cue and a cleared
buffer. -/
theorem handle_prompt_parse_failure_witness :
    handle_prompt (fun _ => none) (Except.ok (Entry.assistant "not json", 3)) Chat.new
      ["peter", "help"] =
      Except.ok ({ model := Chat.new.model,
                   messages := Chat.new.messages ++
                     [Entry.user (userJson "peter help"), Entry.assistant "not json"],
                   tokens := Chat.new.tokens + 3 }, none) ∧
    finalizeHandoff (fun _ => none) (Except.ok (Entry.assistant "not json", 3)) Chat.new
      ["peter", "help"] ([4, 4] : List Nat) =
      HandoffOutcome.continued
        { model := Chat.new.model,
          messages := Chat.new.messages ++
            [Entry.user (userJson "peter help"), Entry.assistant "not json"],
          tokens := Chat.new.tokens + 3 }
        PlayAction.unclearCue [] :=
  handle_prompt_parse_failure (fun _ => none) Chat.new ["peter", "help"]
    (Entry.assistant "not json") 3 [4, 4] (by decide) (by decide)
